import Mathlib

/-!
Verification development for the tabify-api service (src/main.py).

The definitions below are a shallow embedding of the Python source.  Pure
string manipulation is translated directly; every network or filesystem
interaction (yt-dlp download, Shazam recognition, the Spotify client, the
MongoDB tab store, the Songsterr scrape) is an external effect, so its
outcome is passed in explicitly as an environment value, and the handlers
become pure functions from that environment to their HTTP-level result.

Modelling conventions:
* Python exceptions and FastAPI `HTTPException`s are values of `PyExc`; a
  handler returning `Except PyExc r` models "response `r`" vs "exception
  propagated to the framework" (FastAPI turns a propagated `HTTPException`
  into a response with that status, and any other exception into a 500).
* Character classes (`\w`, `\s`, `str.lower`, `str.strip`) are modelled at
  ASCII granularity, which is exact for every string the theorems mention.
* MongoDB `$regex` matching with the `i` option is modelled by an anchored
  matcher for the pattern fragment actually generated by the source:
  literal characters plus the `.` wildcard.  All theorems stay inside this
  fragment (patterns that are metacharacter-free, or use only `.`).
-/

namespace Tabify

/-! ## Characters and strings: Python primitives used by main.py -/

/-- ASCII lowercasing of one character, as `str.lower` acts on the ASCII
range (all strings in this development are ASCII): code points 65-90
(`A`-`Z`) are shifted by 32, everything else is unchanged. -/
def lowerChar (c : Char) : Char :=
  if 65 ≤ c.toNat ∧ c.toNat ≤ 90 then Char.ofNat (c.toNat + 32) else c

/-- Python `str.lower`. -/
def pyLower (s : String) : String :=
  String.mk (s.data.map lowerChar)

/-- Python `\s` (ASCII): space, tab, newline, carriage return, vertical
tab, form feed. -/
def isPySpace (c : Char) : Bool :=
  c = ' ' || c = '\t' || c = '\n' || c = '\r' || c = '\x0b' || c = '\x0c'

/-- Python `\w` (ASCII): letters, digits, underscore. -/
def isWordChar (c : Char) : Bool :=
  c.isAlpha || c.isDigit || c = '_'

/-- Python `str.strip()` restricted to ASCII whitespace. -/
def pyStrip (s : String) : String :=
  String.mk (((s.data.dropWhile isPySpace).reverse.dropWhile isPySpace).reverse)

/-- `startsWithChars p l` holds when `p` is an initial segment of `l`. -/
def startsWithChars : List Char → List Char → Bool
  | [], _ => true
  | _ :: _, [] => false
  | p :: ps, c :: cs => p == c && startsWithChars ps cs

/-- Python `needle in hay` on strings, as a scan over the character list. -/
def containsChars (needle : List Char) : List Char → Bool
  | [] => startsWithChars needle []
  | c :: cs => startsWithChars needle (c :: cs) || containsChars needle cs

/-- Python substring test `needle in hay`. -/
def strContains (needle hay : String) : Bool :=
  containsChars needle.data hay.data

/-- Python `s.replace(" ", "+")` used for query-string construction. -/
def plusJoin (s : String) : String :=
  String.mk (s.data.map (fun c => if c = ' ' then '+' else c))

/-! ## search_tabs (main.py lines 289-309) -/

/-- The slug sanitizer of `search_tabs` (main.py line 292):
`re.sub(r"[^\w\s-]", "", song_name).replace(" ", "-").lower()`.
The regex deletes every character that is not a word character, whitespace,
or a hyphen; then each space (only U+0020) becomes a hyphen; then the
result is lowercased. -/
def sanitize_song_name (song_name : String) : String :=
  String.mk
    (((song_name.data.filter
        (fun c => isWordChar c || isPySpace c || c = '-')).map
      (fun c => if c = ' ' then '-' else c)).map lowerChar)

/-- The Songsterr search URL built by `search_tabs` (main.py line 293). -/
def searchTabsUrl (song_name artist_name : String) : String :=
  "https://www.songsterr.com/?pattern=" ++ plusJoin song_name ++ "+" ++
    plusJoin artist_name

/-- Outcome of the `requests.get` + BeautifulSoup scrape inside
`search_tabs`: a fetched page with the selector result, a
`requests.RequestException`, or a parse failure. -/
inductive ScrapeNet where
  | status (code : Nat) (foundHref : Option String)
  | requestExc (msg : String)
  | parseExc (msg : String)
deriving DecidableEq

/-- `search_tabs` (main.py lines 289-309): on a 200 response whose page
contains a link matching the sanitized-slug selector, return the deep
link; on anything else (non-200, no link, request error, parse error)
return the plain search URL. -/
def search_tabs (net : ScrapeNet) (song_name artist_name : String) : String :=
  let search_url := searchTabsUrl song_name artist_name
  match net with
  | .status code foundHref =>
    if code = 200 then
      match foundHref with
      | some href => "https://www.songsterr.com" ++ href
      | none => search_url
    else search_url
  | .requestExc _ => search_url
  | .parseExc _ => search_url

/-! ## Basic lemmas about the character primitives -/

theorem toNat_ofNat_small {m : Nat} (h : m < 55296) : (Char.ofNat m).toNat = m := by
  have hv : m.isValidChar := Or.inl h
  rw [Char.ofNat, dif_pos hv]
  rfl

theorem lowerChar_idem (c : Char) : lowerChar (lowerChar c) = lowerChar c := by
  unfold lowerChar
  by_cases h : 65 ≤ c.toNat ∧ c.toNat ≤ 90
  · rw [if_pos h]
    have ht : (Char.ofNat (c.toNat + 32)).toNat = c.toNat + 32 :=
      toNat_ofNat_small (by omega)
    rw [if_neg (by rw [ht]; omega)]
  · rw [if_neg h, if_neg h]

theorem lowerChar_ne_space (c : Char) (h : c ≠ ' ') : lowerChar c ≠ ' ' := by
  unfold lowerChar
  split
  · intro hc
    have ht : (Char.ofNat (c.toNat + 32)).toNat = c.toNat + 32 :=
      toNat_ofNat_small (by omega)
    have h32 : (' ' : Char).toNat = 32 := rfl
    have := congrArg Char.toNat hc
    rw [ht, h32] at this
    omega
  · exact h

theorem contains_space_eq_false (l : List Char) (h : ∀ c ∈ l, c ≠ ' ') :
    l.contains ' ' = false := by
  induction l with
  | nil => rfl
  | cons c cs ih =>
    have hc := h c (List.mem_cons_self c cs)
    have := ih (fun x hx => h x (List.mem_cons_of_mem c hx))
    simp_all [List.contains_cons, BEq.beq]
    exact fun h2 => hc h2.symm

/-- No space character survives `sanitize_song_name`: spaces are mapped to
hyphens and `lowerChar` never produces a space. -/
theorem sanitize_no_space (s : String) :
    (sanitize_song_name s).data.contains ' ' = false := by
  apply contains_space_eq_false
  intro c hc
  unfold sanitize_song_name at hc
  simp only [String.data] at hc
  rcases List.mem_map.mp hc with ⟨b, hb, hbc⟩
  rcases List.mem_map.mp hb with ⟨a, _, hab⟩
  subst hbc
  apply lowerChar_ne_space
  subst hab
  by_cases hsp : a = ' '
  · rw [if_pos hsp]
    decide
  · rw [if_neg hsp]
    exact hsp

/-! ## The tab store and the MongoDB regex query (main.py 146-157, 345-348)

The source queries MongoDB with `{"$regex": f"^{q}$", "$options": "i"}`
where `q` is interpolated verbatim (unescaped).  The store is modelled as a
list of records in insertion order and `find_one` as the first record
matching both anchored case-insensitive regexes.  The matcher below covers
the regex fragment of literal characters plus the `.` wildcard; every
theorem instantiates the query inside this fragment, where PCRE and the
model agree (the `.` wildcard of the model, like PCRE's, matches any
character of a single-line subject). -/

/-- A record of the `tabs` collection. -/
structure TabRecord where
  artist : String
  title : String
  tab_text : String
deriving DecidableEq

/-- One compiled token of the modelled regex fragment. -/
inductive RTok where
  | lit (c : Char)
  | dot
deriving DecidableEq

/-- Compile one pattern character: `.` is the wildcard, everything else a
literal. -/
def compileChar (c : Char) : RTok :=
  if c = '.' then .dot else .lit c

/-- Compile the interpolated query string into tokens. -/
def compilePat (p : List Char) : List RTok :=
  p.map compileChar

/-- Case-insensitive token-vs-character match (the `i` option). -/
def tokMatches : RTok → Char → Bool
  | .lit l, c => lowerChar l == lowerChar c
  | .dot, _ => true

/-- Anchored match of a compiled pattern against a subject, i.e. the
semantics of `^pat$` on a single-line subject. -/
def toksMatch : List RTok → List Char → Bool
  | [], [] => true
  | [], _ :: _ => false
  | _ :: _, [] => false
  | t :: ts, c :: cs => tokMatches t c && toksMatch ts cs

/-- The MongoDB condition `{"$regex": "^" + pat + "$", "$options": "i"}`
applied to `subj`. -/
def ciRegexMatch (pat subj : String) : Bool :=
  toksMatch (compilePat pat.data) subj.data

/-- `tabs_collection.find_one` with the two anchored case-insensitive
regex conditions built by the source (artist pattern against the `artist`
field, title pattern against the `title` field); MongoDB returns the first
matching document in insertion order. -/
def findOneTab (store : List TabRecord) (artistPat titlePat : String) :
    Option TabRecord :=
  store.find? (fun r => ciRegexMatch artistPat r.artist &&
    ciRegexMatch titlePat r.title)

/-- Response of `GET /tabs` (main.py `get_tab`). -/
inductive TabResponse where
  | errorMsg (msg : String)
  | found (artist title tab_text : String)
deriving DecidableEq

/-- Whether `get_tab` returned a record. -/
def TabResponse.isFound : TabResponse → Bool
  | .errorMsg _ => false
  | .found _ _ _ => true

/-- `get_tab` (main.py lines 146-169): normalizes the query with
`strip().lower()`, queries the store with unescaped anchored
case-insensitive regexes, and answers `{"error": "Tab not found"}` on a
miss.  (The `except` branch catches MongoDB driver errors; the store
itself is modelled as data, so that branch is unreachable here.) -/
def get_tab (store : List TabRecord) (artist title : String) : TabResponse :=
  match findOneTab store (pyLower (pyStrip artist)) (pyLower (pyStrip title)) with
  | none => .errorMsg "Tab not found"
  | some r => .found r.artist r.title r.tab_text

/-- The characters that are metacharacters of PCRE regexes; a query
containing none of them is interpreted by `$regex` as a plain anchored
literal. -/
def isRegexMeta (c : Char) : Bool :=
  c = '.' || c = '^' || c = '$' || c = '*' || c = '+' || c = '?' ||
  c = '(' || c = ')' || c = '[' || c = ']' || c = '\x7b' || c = '\x7d' ||
  c = '|' || c = '\\'

/-- On a metacharacter-free pattern the anchored case-insensitive regex
match is exactly case-insensitive string equality. -/
theorem toksMatch_all_lit (p s : List Char)
    (hp : ∀ c ∈ p, isRegexMeta c = false) :
    toksMatch (compilePat p) s = true ↔
      p.map lowerChar = s.map lowerChar := by
  induction p generalizing s with
  | nil =>
    cases s with
    | nil => simp [compilePat, toksMatch]
    | cons c cs => simp [compilePat, toksMatch]
  | cons a asx ih =>
    cases s with
    | nil => simp [compilePat, toksMatch]
    | cons c cs =>
      have ha : isRegexMeta a = false := hp a (List.mem_cons_self a asx)
      have hdot : a ≠ '.' := by
        intro hh
        rw [hh] at ha
        simp [isRegexMeta] at ha
      have hrest : ∀ x ∈ asx, isRegexMeta x = false :=
        fun x hx => hp x (List.mem_cons_of_mem a hx)
      simp only [compilePat, List.map_cons, toksMatch, compileChar,
        if_neg hdot, tokMatches, Bool.and_eq_true, beq_iff_eq]
      rw [← compilePat]
      rw [ih cs hrest]
      constructor
      · rintro ⟨h1, h2⟩
        simp [h1, h2]
      · intro h
        injection h with h1 h2
        exact ⟨h1, h2⟩

theorem map_lowerChar_map_lowerChar (l : List Char) :
    (l.map lowerChar).map lowerChar = l.map lowerChar := by
  induction l with
  | nil => rfl
  | cons c cs ih => simp [List.map_cons, ih, lowerChar_idem]

theorem pyLower_idem (s : String) : pyLower (pyLower s) = pyLower s :=
  congrArg String.mk (map_lowerChar_map_lowerChar s.data)

/-- On a metacharacter-free pattern, the anchored case-insensitive regex
condition coincides with case-insensitive string equality. -/
theorem ciRegexMatch_eq_ciEq (pat subj : String)
    (hp : ∀ c ∈ pat.data, isRegexMeta c = false) :
    ciRegexMatch pat subj = true ↔ pyLower pat = pyLower subj := by
  unfold ciRegexMatch
  rw [toksMatch_all_lit pat.data subj.data hp]
  unfold pyLower
  constructor
  · exact fun h => congrArg String.mk h
  · intro h
    have := congrArg String.data h
    exact this

/-! ## Claims C8 and C9 -/

/-- Claim C8, counterexample: the sanitizer does not collapse whitespace to
hyphens — a tab character is neither collapsed nor turned into a hyphen, so
`"a\tb"` keeps its tab instead of becoming `"a-b"`. -/
theorem c8_counterexample :
    sanitize_song_name "a\tb" = "a\tb" ∧ sanitize_song_name "a\tb" ≠ "a-b" := by
  decide

/-- Claim C8, amended: the sanitizer strips characters that are neither
word characters, whitespace, nor hyphens, replaces each space character
(U+0020 only) with a hyphen — so no space survives, but runs of spaces
become runs of hyphens and other whitespace such as tabs is preserved —
and lowercases; in particular the title "Don't Stop Believin'!" produces
exactly the slug dont-stop-believin. -/
theorem c8_slug_amended :
    sanitize_song_name "Don\x27t Stop Believin\x27!" = "dont-stop-believin" ∧
    (∀ s : String, (sanitize_song_name s).data.contains ' ' = false) ∧
    sanitize_song_name "a  b" = "a--b" :=
  ⟨by decide, sanitize_no_space, by decide⟩

/-- Claim C9, counterexample: the query string is interpolated into the
`$regex` pattern unescaped, so a query artist `"a.c"`, which is not
case-insensitively equal to the stored artist `"abc"`, nevertheless
returns that record (`.` acts as a wildcard). -/
theorem c9_counterexample :
    get_tab [⟨"abc", "xyz", "TAB"⟩] "a.c" "xyz" = .found "abc" "xyz" "TAB" ∧
    pyLower (pyStrip "a.c") ≠ pyLower "abc" := by
  decide

/-- Claim C9, amended: for queries whose normalized form contains no regex
metacharacter, the lookup returns a record if and only if some stored
record's artist and title are case-insensitively equal to the stripped
query strings; queries containing metacharacters are instead interpreted
as regex syntax (see the counterexample). -/
theorem c9_exact_match_amended (store : List TabRecord) (artist title : String)
    (ha : ∀ c ∈ (pyLower (pyStrip artist)).data, isRegexMeta c = false)
    (ht : ∀ c ∈ (pyLower (pyStrip title)).data, isRegexMeta c = false) :
    (get_tab store artist title).isFound = true ↔
      ∃ r ∈ store, pyLower (pyStrip artist) = pyLower r.artist ∧
        pyLower (pyStrip title) = pyLower r.title := by
  unfold get_tab
  cases hfo : findOneTab store (pyLower (pyStrip artist)) (pyLower (pyStrip title)) with
  | none =>
    simp only [TabResponse.isFound]
    constructor
    · intro h
      exact absurd h (by simp)
    · rintro ⟨r, hr, h1, h2⟩
      exfalso
      have hnone := List.find?_eq_none.mp hfo r hr
      apply hnone
      rw [Bool.and_eq_true]
      refine ⟨?_, ?_⟩
      · rw [ciRegexMatch_eq_ciEq _ _ ha, pyLower_idem]
        exact h1
      · rw [ciRegexMatch_eq_ciEq _ _ ht, pyLower_idem]
        exact h2
  | some r =>
    simp only [TabResponse.isFound]
    constructor
    · intro _
      refine ⟨r, List.mem_of_find?_eq_some hfo, ?_, ?_⟩
      · have hp := List.find?_some hfo
        rw [Bool.and_eq_true] at hp
        have := (ciRegexMatch_eq_ciEq _ _ ha).mp hp.1
        rw [pyLower_idem] at this
        exact this
      · have hp := List.find?_some hfo
        rw [Bool.and_eq_true] at hp
        have := (ciRegexMatch_eq_ciEq _ _ ht).mp hp.2
        rw [pyLower_idem] at this
        exact this
    · intro _
      trivial

/-- Witness for the amended C9 theorem at a concrete store and query. -/
theorem c9_exact_match_witness :
    (get_tab [⟨"Metallica", "One", "tab text"⟩] " metallica " "ONE").isFound
        = true ↔
      ∃ r ∈ [(⟨"Metallica", "One", "tab text"⟩ : TabRecord)],
        pyLower (pyStrip " metallica ") = pyLower r.artist ∧
        pyLower (pyStrip "ONE") = pyLower r.title :=
  c9_exact_match_amended _ _ _ (by decide) (by decide)

/-! ## Python exceptions, recognition, Spotify, staging (main.py 234-327)

Every network effect is an oracle value in an environment record; the
handlers become pure functions of that environment. -/

/-- A Python exception as observed by the handlers: a FastAPI
`HTTPException` (status + detail), the `UnboundLocalError` raised at
main.py line 281 (the `except spotipy.exceptions.SpotifyException as se:`
branch evaluates `str(e)` with `e` unbound), or any other exception with
its message. -/
inductive PyExc where
  | httpException (status : Nat) (detail : String)
  | unboundLocalError (name : String)
  | otherExc (msg : String)
deriving DecidableEq

/-- Python `str(e)`.  Starlette's `HTTPException.__str__` is
`f"{status_code}: {detail}"`; the `UnboundLocalError` message text is
interpreter-version dependent and no theorem inspects it. -/
def PyExc.toStr : PyExc → String
  | .httpException status detail => toString status ++ ": " ++ detail
  | .unboundLocalError n =>
      "cannot access local variable \x27" ++ n ++
        "\x27 where it is not associated with a value"
  | .otherExc msg => msg

/-- The title/subtitle pair inside a confident Shazam match
(`song_info['track']`). -/
structure Track where
  title : String
  subtitle : String
deriving DecidableEq

/-- Outcome of `await shazam.recognize(audio)` in `identify_song`: either
the service returned a dict (whose `track` key may be absent — the
explicit no-match result), or reading/recognizing raised. -/
inductive RecogOutcome where
  | result (track : Option Track)
  | raises (msg : String)
deriving DecidableEq

/-- The dict `identify_song` hands back to its caller: either the Shazam
result itself or `{"error": "Shazam failed: ..."}`.  A `track` key is
present only in the first case. -/
structure SongInfo where
  track : Option Track
  errMsg : Option String
deriving DecidableEq

/-- `identify_song` (main.py lines 250-260): returns the recognition dict,
or swallows any exception into an error dict without a `track` key. -/
def identify_song : RecogOutcome → SongInfo
  | .result t => ⟨t, none⟩
  | .raises m => ⟨none, some ("Shazam failed: " ++ m)⟩

/-- One Spotify track item: display name, artist names, album image URLs
in resolution order. -/
structure SpTrack where
  name : String
  artistNames : List String
  albumImages : List String
deriving DecidableEq

/-- Outcome of `sp.search(...)` inside `search_spotify`: a result list
(possibly empty), a falsy/malformed response, a
`spotipy.exceptions.SpotifyException`, a `ValueError` from JSON parsing,
or any other exception. -/
inductive SpotifyNet where
  | ok (items : List SpTrack)
  | okMalformed
  | spotifyExc (msg : String)
  | valueErr (msg : String)
  | anyExc (msg : String)
deriving DecidableEq

/-- The dict `search_spotify` returns: an error marker or song/artist/art
data. -/
inductive SpotifyField where
  | errField (msg : String)
  | info (song : String) (artist : String) (album_art : Option String)
deriving DecidableEq

/-- `search_spotify` (main.py lines 262-287).  Empty or malformed results
and the `ValueError`/generic handlers return an inline error dict; the
`SpotifyException` handler itself raises `UnboundLocalError` because it
formats `str(e)` while only `se` is bound (line 281). -/
def search_spotify : SpotifyNet → Except PyExc SpotifyField
  | .ok [] => .ok (.errField "No results found on Spotify")
  | .okMalformed => .ok (.errField "No results found on Spotify")
  | .ok (t :: _) =>
      .ok (.info t.name (String.intercalate ", " t.artistNames)
        t.albumImages.head?)
  | .spotifyExc _ => .error (.unboundLocalError "e")
  | .valueErr m => .ok (.errField ("JSON parsing error: " ++ m))
  | .anyExc m => .ok (.errField ("Unexpected error: " ++ m))

/-- `get_youtube_guitar_lessons_link` (main.py lines 311-313): pure URL
construction, never fails. -/
def get_youtube_guitar_lessons_link (song_name artist_name : String) : String :=
  "https://www.youtube.com/results?tenersearch_query=" ++
    plusJoin (song_name ++ " " ++ artist_name ++ " guitar lesson") ++
    "&sp=EgIYAw%253D%253D"

/-- The staging path chosen by `download_audio` (main.py lines 234-238):
when `/dev/shm` exists the path is the FIXED string
`/dev/shm/audio.m4a` or `/dev/shm/audio.mp3` (chosen by the `"iOS"`
substring hint); otherwise `tempfile.mktemp` supplies a fresh stem and the
same suffix rule applies. -/
def download_audio_path (shmExists : Bool) (yt_url : String)
    (freshStem : String) : String :=
  if shmExists then
    if strContains "iOS" yt_url then "/dev/shm/audio.m4a"
    else "/dev/shm/audio.mp3"
  else
    freshStem ++ (if strContains "iOS" yt_url then ".m4a" else ".mp3")

/-- Outcome of the `tabs_collection.find_one` task dispatched by the
pipeline handlers: the query runs against the store, or the driver
raises. -/
inductive TabNet where
  | ok
  | raises (msg : String)
deriving DecidableEq

/-- `asyncio.gather` with default `return_exceptions=False`: if any task
raises, the exception propagates to the awaiter and the other results are
discarded.  (The real gather propagates the first exception raised in
time; this model returns the first failing task in argument order — the
theorems only examine runs in which at most one task fails, where the two
agree.) -/
def gather3 {α β γ : Type} :
    Except PyExc α → Except PyExc β → Except PyExc γ →
      Except PyExc (α × β × γ)
  | .error e, _, _ => .error e
  | .ok _, .error e, _ => .error e
  | .ok _, .ok _, .error e => .error e
  | .ok a, .ok b, .ok c => .ok (a, b, c)

/-! ## The pipeline handlers (main.py 329-429) -/

/-- Environment (external-world oracle) for one `/find-song` run. -/
structure PipelineEnv where
  /-- whether `/dev/shm` exists on the host -/
  shmExists : Bool
  /-- the fresh stem `tempfile.mktemp` would produce -/
  freshStem : String
  /-- whether `ydl.download` raises -/
  downloadFails : Bool
  /-- message of the download exception -/
  downloadFailMsg : String
  /-- whether a partially written file remains at the staging path when
  the download raises (yt-dlp may leave partial output behind) -/
  leftoverOnFail : Bool
  /-- outcome of Shazam recognition -/
  recog : RecogOutcome
  /-- outcome of the Spotify search -/
  spotify : SpotifyNet
  /-- outcome of the MongoDB `find_one` call -/
  tabNet : TabNet
  /-- the records of the `tabs` collection -/
  store : List TabRecord
deriving DecidableEq

/-- The JSON body of a successful pipeline response (main.py 356-363 and
416-423); the wall-clock `execution_time` field is omitted from the model
(no claim mentions it). -/
structure AggregateResponse where
  song : String
  artist : String
  spotify : SpotifyField
  tabs : Option String
  youtube_lessons : String
deriving DecidableEq

instance {ε α : Type} [DecidableEq ε] [DecidableEq α] :
    DecidableEq (Except ε α) := fun a b =>
  match a, b with
  | .error e, .error f =>
    if h : e = f then isTrue (by rw [h])
    else isFalse (fun hh => h (by injection hh))
  | .ok x, .ok y =>
    if h : x = y then isTrue (by rw [h])
    else isFalse (fun hh => h (by injection hh))
  | .error _, .ok _ => isFalse (fun hh => Except.noConfusion hh)
  | .ok _, .error _ => isFalse (fun hh => Except.noConfusion hh)

/-- Observable outcome of one handler run: the HTTP-level result plus the
temp-file accounting and per-provider call counters. -/
structure RunOutcome (α : Type) where
  /-- `.ok` means a JSON response; `.error` means an exception propagated to
  FastAPI (an `HTTPException` keeps its status, anything else becomes a
  framework 500) -/
  result : Except PyExc α
  /-- whether the staged file still exists after the run -/
  fileLeft : Bool
  /-- number of `os.remove` calls performed -/
  removes : Nat
  /-- number of Shazam recognition attempts -/
  recogCalls : Nat
  /-- number of `search_spotify` invocations -/
  spotifyCalls : Nat
  /-- number of MongoDB tab queries attempted -/
  tabQueries : Nat
deriving DecidableEq

/-- The `find_one` task of the enrichment fan-out (main.py 345-348):
anchored case-insensitive regexes built from the matched artist/title. -/
def tabsTask (tabNet : TabNet) (tabMsg : String) (store : List TabRecord)
    (artist_name song_name : String) : Except PyExc (Option TabRecord) :=
  match tabNet with
  | .ok => .ok (findOneTab store artist_name song_name)
  | .raises _ => .error (.otherExc tabMsg)

/-- `GET /find-song` (main.py lines 329-366).  `download_audio` runs
OUTSIDE the `try`, so a staging failure propagates without any cleanup;
after successful staging the `finally` removes the staged file on every
exit path.  A missing `track` key (no-match or an `identify_song` error
dict alike) raises 404; the enrichment fan-out uses `gather3`. -/
def find_song (env : PipelineEnv) (yt_url : String) :
    RunOutcome AggregateResponse :=
  if yt_url = "" then
    { result := .error (.httpException 400 "YouTube URL is required."),
      fileLeft := false, removes := 0,
      recogCalls := 0, spotifyCalls := 0, tabQueries := 0 }
  else if env.downloadFails then
    { result := .error (.otherExc env.downloadFailMsg),
      fileLeft := env.leftoverOnFail, removes := 0,
      recogCalls := 0, spotifyCalls := 0, tabQueries := 0 }
  else
    match (identify_song env.recog).track with
    | none =>
      { result := .error (.httpException 404 "Could not identify the song."),
        fileLeft := false, removes := 1,
        recogCalls := 1, spotifyCalls := 0, tabQueries := 0 }
    | some tr =>
      match gather3 (search_spotify env.spotify)
          (Except.ok (get_youtube_guitar_lessons_link tr.title tr.subtitle))
          (tabsTask env.tabNet "mongo error" env.store tr.subtitle tr.title) with
      | .error e =>
        { result := .error e, fileLeft := false, removes := 1,
          recogCalls := 1, spotifyCalls := 1, tabQueries := 1 }
      | .ok (sp, yl, tabDoc) =>
        { result := .ok
            { song := tr.title, artist := tr.subtitle, spotify := sp,
              tabs := tabDoc.map TabRecord.tab_text, youtube_lessons := yl },
          fileLeft := false, removes := 1,
          recogCalls := 1, spotifyCalls := 1, tabQueries := 1 }

/-- Environment for one `POST /identify-audio` run. -/
structure UploadEnv where
  /-- `file.filename` of the multipart upload -/
  filename : String
  /-- number of bytes of the uploaded payload -/
  contentSize : Nat
  /-- outcome of Shazam recognition -/
  recog : RecogOutcome
  /-- outcome of the Spotify search -/
  spotify : SpotifyNet
  /-- outcome of the MongoDB `find_one` call -/
  tabNet : TabNet
  /-- the records of the `tabs` collection -/
  store : List TabRecord
deriving DecidableEq

/-- Body of a 200 response from `/identify-audio`: either the inline
`{"error": ...}` dict or the aggregate response. -/
inductive IdentifyBody where
  | inlineError (msg : String)
  | success (resp : AggregateResponse)
deriving DecidableEq

/-- `POST /identify-audio` (main.py lines 368-429).  The temp path comes
from `tempfile.mktemp`; `open(audio_path, 'wb')` creates the file before
any check, and the `finally` always removes it.  Every `HTTPException`
raised inside the `try` — including the 400s for empty and too-small
payloads — is caught by the handler's own `except Exception` and
re-raised as `HTTPException(500, f"Server error: {str(e)}")` (the
too-small 400 is additionally wrapped once by the inner
`except Exception` at line 387). -/
def identify_audio (env : UploadEnv) : RunOutcome IdentifyBody :=
  if env.contentSize = 0 then
    { result := .error (.httpException 500
        ("Server error: " ++
          PyExc.toStr (.httpException 400 "Empty audio file uploaded."))),
      fileLeft := false, removes := 1,
      recogCalls := 0, spotifyCalls := 0, tabQueries := 0 }
  else if env.contentSize < 1024 then
    { result := .error (.httpException 500
        ("Server error: " ++
          PyExc.toStr (.httpException 400
            ("Invalid audio file: " ++
              PyExc.toStr (.httpException 400 "Audio file too small."))))),
      fileLeft := false, removes := 1,
      recogCalls := 0, spotifyCalls := 0, tabQueries := 0 }
  else
    match (identify_song env.recog).track with
    | none =>
      { result := .ok (.inlineError
          "Could not identify the song. Please try a longer or clearer audio sample."),
        fileLeft := false, removes := 1,
        recogCalls := 1, spotifyCalls := 0, tabQueries := 0 }
    | some tr =>
      match gather3 (search_spotify env.spotify)
          (Except.ok (get_youtube_guitar_lessons_link tr.title tr.subtitle))
          (tabsTask env.tabNet "mongo error" env.store tr.subtitle tr.title) with
      | .error e =>
        { result := .error (.httpException 500
            ("Server error: " ++ PyExc.toStr e)),
          fileLeft := false, removes := 1,
          recogCalls := 1, spotifyCalls := 1, tabQueries := 1 }
      | .ok (sp, yl, tabDoc) =>
        { result := .ok (.success
            { song := tr.title, artist := tr.subtitle, spotify := sp,
              tabs := tabDoc.map TabRecord.tab_text, youtube_lessons := yl }),
          fileLeft := false, removes := 1,
          recogCalls := 1, spotifyCalls := 1, tabQueries := 1 }

/-! ## Claim C1: release of the staged audio -/

/-- A run whose staging fails with a partial file left behind. -/
def c1Env : PipelineEnv :=
  { shmExists := true, freshStem := "/tmp/t1", downloadFails := true,
    downloadFailMsg := "yt-dlp: network error", leftoverOnFail := true,
    recog := .result none, spotify := .okMalformed, tabNet := .ok,
    store := [] }

/-- Claim C1, counterexample: when `download_audio` raises in `/find-song`
(it runs OUTSIDE the `try`/`finally`), no cleanup is attempted — zero
`os.remove` calls — so a partial file left by the downloader remains and
the temp-resource count after the request is 1, not 0. -/
theorem c1_counterexample :
    (find_song c1Env "https://youtu.be/dQw").fileLeft = true ∧
    (find_song c1Env "https://youtu.be/dQw").removes = 0 := by
  decide

/-- Claim C1, amended: once staging has succeeded, the staged file is
removed exactly once on every exit path of `/find-song`, and
`/identify-audio` removes its temp file exactly once on every path
(including its own staging-validation failures); but when `download_audio`
itself raises in `/find-song`, no cleanup of a partial resource is
attempted (see the counterexample). -/
theorem c1_cleanup_amended (env : PipelineEnv) (uenv : UploadEnv)
    (url : String) (hd : env.downloadFails = false) :
    (find_song env url).fileLeft = false ∧
    (url ≠ "" → (find_song env url).removes = 1) ∧
    (identify_audio uenv).fileLeft = false ∧
    (identify_audio uenv).removes = 1 := by
  refine ⟨?_, ?_, ?_, ?_⟩
  · unfold find_song
    repeat' split
    all_goals first | rfl | simp_all
  · intro hu
    unfold find_song
    repeat' split
    all_goals first | rfl | simp_all
  · unfold identify_audio
    repeat' split
    all_goals rfl
  · unfold identify_audio
    repeat' split
    all_goals rfl

/-- A successful-staging environment for the C1 witness. -/
def c1WEnv : PipelineEnv :=
  { shmExists := false, freshStem := "/tmp/t1w", downloadFails := false,
    downloadFailMsg := "", leftoverOnFail := false,
    recog := .result (some ⟨"One", "Metallica"⟩), spotify := .ok [],
    tabNet := .ok, store := [] }

/-- An upload environment for the C1 witness. -/
def c1WUEnv : UploadEnv :=
  { filename := "a.mp3", contentSize := 4096,
    recog := .result (some ⟨"One", "Metallica"⟩), spotify := .ok [],
    tabNet := .ok, store := [] }

/-- Witness for the amended C1 theorem at concrete environments. -/
theorem c1_cleanup_witness :
    (find_song c1WEnv "https://youtu.be/a").fileLeft = false ∧
    ("https://youtu.be/a" ≠ "" →
      (find_song c1WEnv "https://youtu.be/a").removes = 1) ∧
    (identify_audio c1WUEnv).fileLeft = false ∧
    (identify_audio c1WUEnv).removes = 1 :=
  c1_cleanup_amended c1WEnv c1WUEnv "https://youtu.be/a" rfl

/-! ## Claim C2: NoMatch vs RecognitionFailed -/

/-- A run in which Shazam reports an explicit no-match. -/
def c2Env : PipelineEnv :=
  { shmExists := false, freshStem := "/tmp/t2", downloadFails := false,
    downloadFailMsg := "", leftoverOnFail := false, recog := .result none,
    spotify := .okMalformed, tabNet := .ok, store := [] }

/-- The corresponding upload run. -/
def c2UEnv : UploadEnv :=
  { filename := "a.mp3", contentSize := 4096, recog := .result none,
    spotify := .okMalformed, tabNet := .ok, store := [] }

/-- Claim C2, counterexample: an explicit Shazam no-match and a
recognition transport failure produce byte-identical outcomes on both
endpoints — the same 404 "Could not identify the song." from `/find-song`
and the same inline error dict from `/identify-audio` — so the two
conditions are not distinguishable by the caller. -/
theorem c2_counterexample :
    find_song c2Env "https://youtu.be/b" =
      find_song { c2Env with recog := .raises "Connection reset" }
        "https://youtu.be/b" ∧
    (find_song c2Env "https://youtu.be/b").result =
      .error (.httpException 404 "Could not identify the song.") ∧
    identify_audio c2UEnv =
      identify_audio { c2UEnv with recog := .raises "Connection reset" } ∧
    (identify_audio c2UEnv).result =
      .ok (.inlineError
        "Could not identify the song. Please try a longer or clearer audio sample.") := by
  decide

/-- Claim C2, amended: NoMatch and RecognitionFailed are collapsed, not
distinguished: `identify_song` swallows every recognition exception into a
dict without a `track` key, both handlers test only for the absence of
`track`, and therefore for EVERY environment the two outcomes yield
identical responses. -/
theorem c2_collapse_amended (env : PipelineEnv) (uenv : UploadEnv)
    (url m : String) :
    find_song { env with recog := .result none } url =
      find_song { env with recog := .raises m } url ∧
    identify_audio { uenv with recog := .result none } =
      identify_audio { uenv with recog := .raises m } := by
  constructor
  · unfold find_song
    simp [identify_song]
  · unfold identify_audio
    simp [identify_song]

/-! ## Claim C3: empty/too-small uploads -/

/-- A 500-byte upload. -/
def c3UEnv : UploadEnv :=
  { filename := "clip.mp3", contentSize := 500, recog := .result none,
    spotify := .okMalformed, tabNet := .ok, store := [] }

/-- Claim C3: uploading a 500-byte file triggers
`HTTPException(400, "Audio file too small.")`, but the handler's own
`except Exception` chain wraps it (once by the inner handler, once by the
outer) and re-raises `HTTPException(500, ...)`, so the caller receives
HTTP 500, not the claimed 400; the empty-payload 400 is likewise converted
to 500.  No pipeline stage beyond staging executes (that part of the claim
holds). -/
theorem c3_small_upload_evaluation :
    (identify_audio c3UEnv).result =
      .error (.httpException 500
        "Server error: 400: Invalid audio file: 400: Audio file too small.") ∧
    (identify_audio c3UEnv).recogCalls = 0 ∧
    (identify_audio c3UEnv).spotifyCalls = 0 ∧
    (identify_audio c3UEnv).tabQueries = 0 ∧
    (identify_audio { c3UEnv with contentSize := 0 }).result =
      .error (.httpException 500
        "Server error: 400: Empty audio file uploaded.") := by
  decide

/-! ## Claim C4: enrichment error containment -/

/-- A run with a confident match, a stored tab record, and a Spotify
transport error. -/
def c4Env : PipelineEnv :=
  { shmExists := false, freshStem := "/tmp/t4", downloadFails := false,
    downloadFailMsg := "", leftoverOnFail := false,
    recog := .result (some ⟨"One", "Metallica"⟩),
    spotify := .spotifyExc "401 Unauthorized", tabNet := .ok,
    store := [⟨"Metallica", "One", "TAB"⟩] }

/-- Claim C4, counterexample: with the tab store holding a matching record
and the lessons builder infallible, a single failing provider (a
`SpotifyException`, whose handler itself raises `UnboundLocalError`)
makes the entire aggregate response disappear: the run ends in a
propagated exception instead of a response whose other fields are
populated. -/
theorem c4_counterexample :
    (find_song c4Env "https://youtu.be/c").result =
      .error (.unboundLocalError "e") := by
  decide

/-- Claim C4, amended: containment is partial.  Errors that
`search_spotify` catches internally (empty result set, malformed response,
`ValueError`, generic exceptions) are recorded in the `spotify` field
while `tabs` and `youtube_lessons` stay populated; but a
`SpotifyException` escapes as `UnboundLocalError`, a raising tab-store
query escapes as-is, and in either case `asyncio.gather` discards the
whole aggregate. -/
theorem c4_containment_amended (env : PipelineEnv) (url m : String)
    (tr : Track) (hu : url ≠ "") (hd : env.downloadFails = false)
    (hr : env.recog = .result (some tr)) (htab : env.tabNet = .ok) :
    (find_song { env with spotify := .valueErr m } url).result =
      .ok { song := tr.title, artist := tr.subtitle,
            spotify := .errField ("JSON parsing error: " ++ m),
            tabs := (findOneTab env.store tr.subtitle tr.title).map
              TabRecord.tab_text,
            youtube_lessons :=
              get_youtube_guitar_lessons_link tr.title tr.subtitle } ∧
    (find_song { env with spotify := .spotifyExc m } url).result =
      .error (.unboundLocalError "e") ∧
    (find_song { env with spotify := .okMalformed, tabNet := .raises m } url).result =
      .error (.otherExc "mongo error") := by
  refine ⟨?_, ?_, ?_⟩ <;>
    simp [find_song, hu, hd, hr, htab, identify_song, search_spotify,
      tabsTask, gather3]

/-- Witness for the amended C4 theorem at a concrete environment. -/
theorem c4_containment_witness :
    (find_song { c4Env with spotify := .valueErr "bad json" }
        "https://youtu.be/c").result =
      .ok { song := "One", artist := "Metallica",
            spotify := .errField ("JSON parsing error: " ++ "bad json"),
            tabs := (findOneTab c4Env.store "Metallica" "One").map
              TabRecord.tab_text,
            youtube_lessons :=
              get_youtube_guitar_lessons_link "One" "Metallica" } ∧
    (find_song { c4Env with spotify := .spotifyExc "bad json" }
        "https://youtu.be/c").result =
      .error (.unboundLocalError "e") ∧
    (find_song { c4Env with spotify := .okMalformed, tabNet := .raises "bad json" } "https://youtu.be/c").result =
      .error (.otherExc "mongo error") :=
  c4_containment_amended c4Env "https://youtu.be/c" "bad json"
    ⟨"One", "Metallica"⟩ (by decide) rfl rfl rfl

/-! ## Claim C5: staging location freshness -/

/-- Claim C5, counterexample: with `/dev/shm` present, two staging calls
for different remote URLs (and different mktemp stems) produce the SAME
fixed path `/dev/shm/audio.mp3`, so two concurrent runs share and can
overwrite one staged file. -/
theorem c5_counterexample :
    download_audio_path true "https://youtu.be/first" "/tmp/tmpAAA" =
      download_audio_path true "https://youtu.be/second" "/tmp/tmpBBB" ∧
    download_audio_path true "https://youtu.be/first" "/tmp/tmpAAA" =
      "/dev/shm/audio.mp3" := by
  decide

/-- Claim C5, amended: only the fallback branch (no `/dev/shm`) stages at
a fresh location — distinct `mktemp` stems yield distinct paths for a
common suffix choice; when `/dev/shm` exists, every non-iOS URL is staged
at the fixed `/dev/shm/audio.mp3` and every iOS URL at
`/dev/shm/audio.m4a`, shared across requests. -/
theorem c5_staging_amended (u1 u2 s1 s2 u : String) (hs : s1 ≠ s2)
    (hsuf : strContains "iOS" u1 = strContains "iOS" u2) :
    download_audio_path false u1 s1 ≠ download_audio_path false u2 s2 ∧
    (strContains "iOS" u = false →
      download_audio_path true u s1 = "/dev/shm/audio.mp3") ∧
    (strContains "iOS" u = true →
      download_audio_path true u s1 = "/dev/shm/audio.m4a") := by
  refine ⟨?_, ?_, ?_⟩
  · unfold download_audio_path
    rw [if_neg Bool.false_ne_true, if_neg Bool.false_ne_true, hsuf]
    intro hcontra
    apply hs
    have hdata := congrArg String.data hcontra
    rw [String.data_append, String.data_append] at hdata
    have := (List.append_left_inj _).mp hdata
    exact congrArg String.mk this
  · intro h
    unfold download_audio_path
    rw [if_pos rfl, if_neg (by simp [h])]
  · intro h
    unfold download_audio_path
    rw [if_pos rfl, if_pos (by simp [h])]

/-- Witness for the amended C5 theorem at concrete stems and URLs. -/
theorem c5_staging_witness :
    download_audio_path false "https://youtu.be/first" "/tmp/tmpAAA" ≠
      download_audio_path false "https://youtu.be/second" "/tmp/tmpBBB" ∧
    (strContains "iOS" "https://youtu.be/first" = false →
      download_audio_path true "https://youtu.be/first" "/tmp/tmpAAA" =
        "/dev/shm/audio.mp3") ∧
    (strContains "iOS" "https://youtu.be/first" = true →
      download_audio_path true "https://youtu.be/first" "/tmp/tmpAAA" =
        "/dev/shm/audio.m4a") :=
  c5_staging_amended "https://youtu.be/first" "https://youtu.be/second"
    "/tmp/tmpAAA" "/tmp/tmpBBB" "https://youtu.be/first" (by decide)
    (by decide)

/-! ## Claim C6: bounded token refresh/retry (spec-modelled) -/

/-- Result of one authenticated catalog query through the client
library. -/
inductive CatalogAuthResult where
  | populated
  | providerError
  | authError
deriving DecidableEq

/-- Modelled from the spec: the shared CredentialToken refresh-and-retry
policy of the catalog client (spec section 4.3).  This logic lives inside
the spotipy client library, which is not part of src/ — `search_spotify`
in src/ only issues the single query through it.  Per the spec, on an
expired token the client transparently refreshes the shared token once and
retries the single query; a failure of the retried query is surfaced
without further retries; with a valid token there is a single attempt.
The second component counts the provider query attempts. -/
def catalogAuthCall (tokenExpired refreshOk firstOk retryOk : Bool) :
    CatalogAuthResult × Nat :=
  if tokenExpired then
    if refreshOk then
      (if retryOk then (.populated, 2) else (.providerError, 2))
    else (.authError, 1)
  else
    (if firstOk then (.populated, 1) else (.providerError, 1))

/-- Claim C6: an expired token causes exactly one transparent refresh and
one retry — at most 2 attempts for the catalog provider, exactly 2 on the
expiry path, with no second retry after a repeat failure — and this is the
only retry in the pipeline: each `/find-song` run that reaches enrichment
performs exactly one recognition attempt, one `search_spotify` invocation
and one tab-store query. -/
theorem c6_token_retry (e r f q : Bool) (env : PipelineEnv) (url : String)
    (tr : Track) (hu : url ≠ "") (hd : env.downloadFails = false)
    (hr : env.recog = .result (some tr)) :
    (catalogAuthCall e r f q).2 ≤ 2 ∧
    (e = true → r = true → q = true →
      catalogAuthCall e r f q = (.populated, 2)) ∧
    (e = true → r = true → q = false →
      catalogAuthCall e r f q = (.providerError, 2)) ∧
    (find_song env url).recogCalls = 1 ∧
    (find_song env url).spotifyCalls = 1 ∧
    (find_song env url).tabQueries = 1 := by
  refine ⟨?_, ?_, ?_, ?_, ?_, ?_⟩
  · cases e <;> cases r <;> cases f <;> cases q <;> simp [catalogAuthCall]
  · intro he hr' hq
    subst he; subst hr'; subst hq
    cases f <;> rfl
  · intro he hr' hq
    subst he; subst hr'; subst hq
    cases f <;> rfl
  all_goals
    unfold find_song
    rw [if_neg hu, if_neg (by simp [hd]), hr]
    simp only [identify_song]
    split <;> rfl

/-- A concrete environment for the C6 witness. -/
def c6WEnv : PipelineEnv :=
  { shmExists := false, freshStem := "/tmp/t6", downloadFails := false,
    downloadFailMsg := "", leftoverOnFail := false,
    recog := .result (some ⟨"One", "Metallica"⟩), spotify := .ok [],
    tabNet := .ok, store := [] }

/-- Witness for the C6 theorem at concrete flags and environment. -/
theorem c6_token_retry_witness :
    (catalogAuthCall true true false true).2 ≤ 2 ∧
    (true = true → true = true → true = true →
      catalogAuthCall true true false true = (.populated, 2)) ∧
    (true = true → true = true → true = false →
      catalogAuthCall true true false true = (.providerError, 2)) ∧
    (find_song c6WEnv "https://youtu.be/f").recogCalls = 1 ∧
    (find_song c6WEnv "https://youtu.be/f").spotifyCalls = 1 ∧
    (find_song c6WEnv "https://youtu.be/f").tabQueries = 1 :=
  c6_token_retry true true false true c6WEnv "https://youtu.be/f"
    ⟨"One", "Metallica"⟩ (by decide) rfl rfl

/-! ## Claim C7: tab lookup fallback -/

/-- A pipeline run whose tab-store lookup misses. -/
def c7Env : PipelineEnv :=
  { shmExists := false, freshStem := "/tmp/t7", downloadFails := false,
    downloadFailMsg := "", leftoverOnFail := false,
    recog := .result (some ⟨"Creep", "Radiohead"⟩),
    spotify := .okMalformed, tabNet := .ok, store := [] }

/-- Claim C7, counterexample: a pipeline run whose store lookup misses
completes with `tabs = null` — an absent tabs value — and never constructs
the Songsterr search URL (the fallback function `search_tabs` has no call
site in the pipeline). -/
theorem c7_counterexample :
    (find_song c7Env "https://youtu.be/g").result =
      .ok { song := "Creep", artist := "Radiohead",
            spotify := .errField "No results found on Spotify",
            tabs := none,
            youtube_lessons :=
              get_youtube_guitar_lessons_link "Creep" "Radiohead" } := by
  decide

/-- Claim C7, amended: the pipeline consults the store only; on a miss the
response's `tabs` field is null and no search-URL fallback runs.  The
fallback behaviour the claim describes (public search URL, best-effort
scrape of one candidate link, graceful degradation to the plain search
URL) exists only in the standalone function `search_tabs`, which no
pipeline endpoint invokes and which itself never consults the store. -/
theorem c7_tabs_amended (env : PipelineEnv) (url : String) (tr : Track)
    (hu : url ≠ "") (hd : env.downloadFails = false)
    (hr : env.recog = .result (some tr)) (htab : env.tabNet = .ok)
    (hsp : env.spotify = .okMalformed)
    (hmiss : findOneTab env.store tr.subtitle tr.title = none) :
    (find_song env url).result =
      .ok { song := tr.title, artist := tr.subtitle,
            spotify := .errField "No results found on Spotify",
            tabs := none,
            youtube_lessons :=
              get_youtube_guitar_lessons_link tr.title tr.subtitle } ∧
    (∀ msg song artist, search_tabs (.requestExc msg) song artist =
      searchTabsUrl song artist) ∧
    (∀ code href song artist, code ≠ 200 →
      search_tabs (.status code href) song artist =
        searchTabsUrl song artist) ∧
    (∀ song artist, search_tabs (.status 200 none) song artist =
      searchTabsUrl song artist) ∧
    (∀ href song artist, search_tabs (.status 200 (some href)) song artist =
      "https://www.songsterr.com" ++ href) := by
  refine ⟨?_, ?_, ?_, ?_, ?_⟩
  · simp [find_song, hu, hd, hr, htab, hsp, hmiss, identify_song,
      search_spotify, tabsTask, gather3]
  · intro msg song artist
    rfl
  · intro code href song artist hcode
    unfold search_tabs
    simp [hcode]
  · intro song artist
    rfl
  · intro href song artist
    rfl

/-- Witness for the amended C7 theorem at a concrete environment. -/
theorem c7_tabs_witness :
    (find_song c7Env "https://youtu.be/g").result =
      .ok { song := "Creep", artist := "Radiohead",
            spotify := .errField "No results found on Spotify",
            tabs := none,
            youtube_lessons :=
              get_youtube_guitar_lessons_link "Creep" "Radiohead" } ∧
    (∀ msg song artist, search_tabs (.requestExc msg) song artist =
      searchTabsUrl song artist) ∧
    (∀ code href song artist, code ≠ 200 →
      search_tabs (.status code href) song artist =
        searchTabsUrl song artist) ∧
    (∀ song artist, search_tabs (.status 200 none) song artist =
      searchTabsUrl song artist) ∧
    (∀ href song artist, search_tabs (.status 200 (some href)) song artist =
      "https://www.songsterr.com" ++ href) :=
  c7_tabs_amended c7Env "https://youtu.be/g" ⟨"Creep", "Radiohead"⟩
    (by decide) rfl rfl rfl rfl rfl

/-! ## Claim C10: recognition fields pass through unchanged -/

/-- Claim C10: in every run of either endpoint that produces an aggregate
response, the `song` and `artist` fields are exactly the recognition
match's title and subtitle — no catalog, tab or lesson outcome overwrites
them. -/
theorem c10_frame (env : PipelineEnv) (uenv : UploadEnv) (url : String)
    (tr tu : Track) (resp resp2 : AggregateResponse)
    (h1 : env.recog = .result (some tr))
    (h2 : (find_song env url).result = .ok resp)
    (h3 : uenv.recog = .result (some tu))
    (h4 : (identify_audio uenv).result = .ok (.success resp2)) :
    resp.song = tr.title ∧ resp.artist = tr.subtitle ∧
    resp2.song = tu.title ∧ resp2.artist = tu.subtitle := by
  refine ⟨?_, ?_, ?_, ?_⟩
  all_goals
    first
    | (unfold find_song at h2
       rw [h1] at h2
       simp only [identify_song] at h2
       repeat' split at h2
       all_goals try simp_all
       all_goals rw [← h2])
    | (unfold identify_audio at h4
       rw [h3] at h4
       simp only [identify_song] at h4
       repeat' split at h4
       all_goals try simp_all
       all_goals rw [← h4])

/-- A concrete all-success environment for the C10 witness. -/
def c10WEnv : PipelineEnv :=
  { shmExists := false, freshStem := "/tmp/t10", downloadFails := false,
    downloadFailMsg := "", leftoverOnFail := false,
    recog := .result (some ⟨"Creep", "Radiohead"⟩),
    spotify := .ok [⟨"Creep", ["Radiohead"], ["http://img"]⟩],
    tabNet := .ok, store := [⟨"Radiohead", "Creep", "TEXT"⟩] }

/-- The corresponding upload environment for the C10 witness. -/
def c10WUEnv : UploadEnv :=
  { filename := "c.mp3", contentSize := 9000,
    recog := .result (some ⟨"Creep", "Radiohead"⟩),
    spotify := .ok [⟨"Creep", ["Radiohead"], ["http://img"]⟩],
    tabNet := .ok, store := [⟨"Radiohead", "Creep", "TEXT"⟩] }

/-- The aggregate response both endpoints produce in the C10 witness
environment. -/
def c10WResp : AggregateResponse :=
  { song := "Creep", artist := "Radiohead",
    spotify := .info "Creep" "Radiohead" (some "http://img"),
    tabs := some "TEXT",
    youtube_lessons := get_youtube_guitar_lessons_link "Creep" "Radiohead" }

/-- Witness for the C10 theorem at concrete environments. -/
theorem c10_frame_witness :
    c10WResp.song = "Creep" ∧ c10WResp.artist = "Radiohead" ∧
    c10WResp.song = "Creep" ∧ c10WResp.artist = "Radiohead" :=
  c10_frame c10WEnv c10WUEnv "https://youtu.be/h" ⟨"Creep", "Radiohead"⟩
    ⟨"Creep", "Radiohead"⟩ c10WResp c10WResp rfl (by decide) rfl (by decide)

end Tabify
